import Mathlib

/-!
Verification development for the `upagerduty` client library
(`upagerduty/__init__.py`).  The Python source is shallowly embedded:
each class method that the specification talks about becomes a pure
Lean function, HTTP transport becomes an explicit oracle argument, and
Python exceptions become an `Except` error type.  Dynamic values
(decoded JSON) are modelled by an inductive `Json` type.  The module
is Python 3 (`python3` shebang; the `urllib.error` / `urllib.parse` /
`urllib.request` imports exist only there) and is embedded at
Python 3 semantics; in particular, two Python 2 idioms the source
still contains are modelled as the errors Python 3 raises for them:
`base64.encodestring` applied to a `str` (lines 60 and 228) raises
`TypeError` unconditionally, and `range(1, total/limit + 1)` (lines
294-295) raises `TypeError` because `total / limit` is a float.
-/

/-- Decoded JSON values, the result of `json.loads`. -/
inductive Json where
  | null
  | bool (b : Bool)
  | num (n : Int)
  | str (s : String)
  | arr (elems : List Json)
  | obj (fields : List (String × Json))

/-- Python exceptions that the embedded code can raise. -/
inductive PyErr where
  | typeError
  | keyError (k : String)
  | attributeError (attr : String)
  | jsonDecodeError
  | httpTransport (code : Int) (body : Option Json)
  | schedulesApiError (statuscode statusdesc errormessage : Option Json)
  | incidentsApiError (statuscode statusdesc errormessage : Option Json)
  | pagerDutyException (status message errors : Json)

/-- Python `j[k]` on a decoded JSON value: a key lookup on a dict
(`KeyError` when missing), a `TypeError` on any non-dict value. -/
def pyGetItem (j : Json) (k : String) : Except PyErr Json :=
  match j with
  | .obj kvs =>
    match kvs.find? (fun p => p.1 == k) with
    | some p => .ok p.2
    | none => .error (.keyError k)
  | _ => .error .typeError

/-- Python `j.get(k, d)` on a dict.  In the source this is only ever
called after a successful `j[...]` subscript on the same object, so the
non-dict case is unreachable and modelled by the default. -/
def pyGet (j : Json) (k : String) (d : Json) : Json :=
  match j with
  | .obj kvs =>
    match kvs.find? (fun p => p.1 == k) with
    | some p => p.2
    | none => d
  | _ => d

/-- Python `j.get(k)` on a dict (default `None`), used for
`result.get('incident_key')`. -/
def pyGetOpt (j : Json) (k : String) : Option Json :=
  match j with
  | .obj kvs => (kvs.find? (fun p => p.1 == k)).map (fun p => p.2)
  | _ => none

/-- Python `k in j` for a string `k`: key membership on a dict, element
membership on a list, substring test on a string, `TypeError` on the
remaining (non-iterable) values. -/
def pyContainsKey (j : Json) (k : String) : Except PyErr Bool :=
  match j with
  | .obj kvs => .ok (kvs.any (fun p => p.1 == k))
  | .arr xs =>
    .ok (xs.any (fun x => match x with | .str s => s == k | _ => false))
  | .str s => .ok (k.isEmpty || decide ((s.splitOn k).length > 1))
  | _ => .error .typeError

/-- Helper for `' | '.join`: succeeds only when every element of the
list is a string. -/
def strListOfJson : List Json → Option (List String)
  | [] => some []
  | .str s :: rest => (strListOfJson rest).map (fun l => s :: l)
  | _ => none

/-- The separator used by the error mapper when joining sub-errors. -/
def pipeSep : String := " | "

/-- Plain `' | '.join` over a list of strings. -/
def joinPipe (l : List String) : String := String.intercalate pipeSep l

/-- Python `' | '.join(x)`: joins a list of strings; a plain string is
an iterable of its one-character strings; a dict iterates its keys;
any other value (or a list holding a non-string) raises `TypeError`,
modelled as `none`. -/
def pyJoinPipe : Json → Option String
  | .arr xs => (strListOfJson xs).map joinPipe
  | .str s => some (joinPipe (s.data.map (fun c => String.singleton c)))
  | .obj kvs => some (joinPipe (kvs.map (fun p => p.1)))
  | _ => none

/-- The three instance fields (`statuscode`, `statusdesc`,
`errormessage`) set by `SchedulesError.__init__` and
`IncidentsError.__init__`.  `none` models an attribute that was never
assigned (as happens in `SchedulesError` when the decode fails). -/
structure ApiErrFields where
  statuscode : Option Json
  statusdesc : Option Json
  errormessage : Option Json

/-- The shared `try:` block of the two error constructors
(`__init__.py` lines 23-32 and 194-203): starting from `init` (the
field values assigned before the block), read and decode the body,
fetch `j['error']`, then assign `statuscode = error['code']`,
`statusdesc = ' | '.join(error.get('errors', []))` and
`errormessage = error['message']` in that order; the bare `except`
silently stops at the first failure, keeping every assignment already
made.  `body = none` models a failed `self.read()` or `json.loads`. -/
def structuredOverwrite (init : ApiErrFields) (body : Option Json) : ApiErrFields :=
  match body with
  | none => init
  | some j =>
    match (pyGetItem j "error").toOption with
    | none => init
    | some error =>
      match (pyGetItem error "code").toOption with
      | none => init
      | some c =>
        let s1 := { init with statuscode := some c }
        match pyJoinPipe (pyGet error "errors" (Json.arr [])) with
        | none => s1
        | some d =>
          let s2 := { s1 with statusdesc := some (Json.str d) }
          match (pyGetItem error "message").toOption with
          | none => s2
          | some m => { s2 with errormessage := some m }

/-- Field state produced by `SchedulesError.__init__` (lines 19-32):
no defaults are assigned before the `try:` block, so on any decode
failure the three fields stay unset. -/
def schedulesError_fields (body : Option Json) : ApiErrFields :=
  structuredOverwrite ⟨none, none, none⟩ body

/-- Field state produced by `IncidentsError.__init__` (lines 186-203):
the HTTP-level code, reason phrase and an empty message are assigned
as defaults before the `try:` block. -/
def incidentsError_fields (code : Int) (msg : String) (body : Option Json) : ApiErrFields :=
  structuredOverwrite ⟨some (Json.num code), some (Json.str msg), some (Json.str "")⟩ body

/-- The data of a raised `urllib` `HTTPError`: status code, reason
phrase, and the decoded body (`none` when reading/decoding it fails). -/
structure HTTPErr where
  code : Int
  msg : String
  body : Option Json

/-- The argument actually passed to `SchedulesError(...)` or
`IncidentsError(...)`: a real `HTTPError` from the transport, or — in
the response decoders — the decoded JSON dict itself. -/
inductive ErrCtorArg where
  | httpError (he : HTTPErr)
  | jsonDict (content : Json)

/-- Constructing `SchedulesError(x)`: `HTTPError.__init__` immediately
reads `x.filename`, so passing the decoded dict (as
`SchedulesResponse.__init__` does) raises `AttributeError` before any
field is assigned. -/
def schedulesError_new : ErrCtorArg → Except PyErr ApiErrFields
  | .jsonDict _ => .error (.attributeError "filename")
  | .httpError he => .ok (schedulesError_fields he.body)

/-- Constructing `IncidentsError(x)`; same shape as
`schedulesError_new`. -/
def incidentsError_new : ErrCtorArg → Except PyErr ApiErrFields
  | .jsonDict _ => .error (.attributeError "filename")
  | .httpError he => .ok (incidentsError_fields he.code he.msg he.body)

/-- `SchedulesResponse.__init__` (lines 78-87) after `json.loads`
succeeded: if `'error' in content` then `raise SchedulesError(self.content)`,
else the response holds `content`. -/
def schedulesResponse_init (content : Json) : Except PyErr Json :=
  match pyContainsKey content "error" with
  | .error e => .error e
  | .ok true =>
    match schedulesError_new (.jsonDict content) with
    | .error e => .error e
    | .ok f => .error (.schedulesApiError f.statuscode f.statusdesc f.errormessage)
  | .ok false => .ok content

/-- `IncidentsResponse.__init__` (lines 243-252); same shape as
`schedulesResponse_init`. -/
def incidentsResponse_init (content : Json) : Except PyErr Json :=
  match pyContainsKey content "error" with
  | .error e => .error e
  | .ok true =>
    match incidentsError_new (.jsonDict content) with
    | .error e => .error e
    | .ok f => .error (.incidentsApiError f.statuscode f.statusdesc f.errormessage)
  | .ok false => .ok content

/-- The credential/URL state held by a `Schedules` or `Incidents`
connection object. -/
structure Conn where
  username : String
  password : String
  base_url : String

/-- A constructed `urllib` `Request`: target URL pieces, the query
parameters handed to `urlencode` (kept structured; percent-encoding is
not inspected by any claim), and the added headers. -/
structure PyRequest where
  url_base : String
  params : List (String × Json)
  headers : List (String × String)

/-- The Python 3 `str` built by `'%s:%s' % (username, password)` at
lines 60 and 228. -/
def userPassStr (conn : Conn) : String := conn.username ++ ":" ++ conn.password

/-- `base64.encodestring(arg)` applied to a `str`, as at lines 60 and
228: in Python 3.0-3.8 `encodestring` is a deprecated alias of
`encodebytes`, whose input check rejects `str` with `TypeError`
("expected bytes-like object, not str"); from Python 3.9 the attribute
does not exist at all (`AttributeError`).  Either way the call raises
unconditionally before producing anything; the pre-3.9 `TypeError` is
the error used here. -/
def encodestring_py3 (_arg : String) : Except PyErr String := .error .typeError

/-- `SchedulesRequest.__init__` (lines 40-61) under Python 3:
`urlencode(params)` and `Request.__init__(self, url)` succeed, then
line 60's `base64.encodestring('%s:%s' % (username, password))` raises,
so construction never completes and the request is never issued.  (The
unreachable success branch mirrors lines 60-61: strip the newlines and
prepend `"Basic "`.) -/
def schedulesRequest_new (conn : Conn) (resource : String)
    (params : List (String × Json)) : Except PyErr PyRequest :=
  match encodestring_py3 (userPassStr conn) with
  | .error e => .error e
  | .ok b =>
    .ok { url_base := conn.base_url ++ resource
          params := params
          headers := [("Authorization", "Basic " ++ b.replace "\n" "")] }

/-- `IncidentsRequest.__init__` (lines 211-229) under Python 3; line
228 is the same always-raising `base64.encodestring` call as line
60. -/
def incidentsRequest_new (conn : Conn) (params : List (String × Json)) :
    Except PyErr PyRequest :=
  match encodestring_py3 (userPassStr conn) with
  | .error e => .error e
  | .ok b =>
    .ok { url_base := conn.base_url
          params := params
          headers := [("Authorization", "Basic " ++ b.replace "\n" "")] }

/-- The params dict of `Schedules.entries` (lines 120-122):
`{'since': since, 'until': until}` plus `{'overflow': True}` when
`overflow` is set. -/
def entriesParams (since until_ : String) (overflow : Bool) : List (String × Json) :=
  [("since", Json.str since), ("until", Json.str until_)] ++
    (if overflow then [("overflow", Json.bool true)] else [])

/-- `Schedules.entries` (lines 103-127) over a transport oracle `srv`
(mapping an issued request to either a raised `HTTPError` or a
response body, `none` for an undecodable body): build the params dict,
construct the `SchedulesRequest` — which under Python 3 raises
`TypeError` at line 60, before any fetch — and otherwise fetch once,
run the response decoder and return `content['entries']`.  The first
component is the list of HTTP requests actually issued. -/
def schedules_entries (conn : Conn) (srv : PyRequest → Except HTTPErr (Option Json))
    (since until_ : String) (overflow : Bool) :
    List PyRequest × Except PyErr Json :=
  let ps := entriesParams since until_ overflow
  match schedulesRequest_new conn "entries" ps with
  | .error e => ([], .error e)
  | .ok req =>
    ([req],
      match srv req with
      | .error he =>
        match schedulesError_new (.httpError he) with
        | .error e => .error e
        | .ok f => .error (.schedulesApiError f.statuscode f.statusdesc f.errormessage)
      | .ok none => .error .jsonDecodeError
      | .ok (some content) =>
        match schedulesResponse_init content with
        | .error e => .error e
        | .ok c => pyGetItem c "entries")

/-- The JSON body built by `PagerDuty._request` (lines 161-168):
`service_key` and `event_type` first, then every keyword argument
whose value is not `None`, in keyword order.  The keyword names are
fixed and distinct, so the dict is an association list. -/
def eventBody (service_key : String) (event_type : String)
    (kwargs : List (String × Option Json)) : List (String × Json) :=
  ("service_key", Json.str service_key) :: ("event_type", Json.str event_type) ::
    kwargs.filterMap (fun p => p.2.map (fun v => (p.1, v)))

/-- The body of `PagerDuty.trigger` (lines 152-153). -/
def triggerBody (sk : String) (description incident_key details : Option Json) :
    List (String × Json) :=
  eventBody sk "trigger"
    [("description", description), ("incident_key", incident_key), ("details", details)]

/-- The body of `PagerDuty.acknowledge` (lines 155-156). -/
def acknowledgeBody (sk : String) (incident_key description details : Option Json) :
    List (String × Json) :=
  eventBody sk "acknowledge"
    [("description", description), ("incident_key", incident_key), ("details", details)]

/-- The body of `PagerDuty.resolve` (lines 158-159). -/
def resolveBody (sk : String) (incident_key description details : Option Json) :
    List (String × Json) :=
  eventBody sk "resolve"
    [("description", description), ("incident_key", incident_key), ("details", details)]

/-- The outcome of `urlopen` on the events endpoint: a 2xx response
with a body, or a raised `HTTPError` with a status code and the body
readable from the exception object (`none` models an undecodable
body in either case). -/
inductive UrlopenResult where
  | success (body : Option Json)
  | httpError (code : Int) (body : Option Json)

/-- Python `result['status'] != "success"` negated: true exactly when
the value is the string `"success"`. -/
def isSuccessStatus (s : Json) : Bool :=
  match s with
  | .str x => x == "success"
  | _ => false

/-- Result interpretation of `PagerDuty._request` (lines 177-184):
decode the body, read `result['status']`; when it differs from
`"success"` raise `PagerDutyException(result['status'],
result['message'], result['errors'])` — each subscript in that order,
so a missing key raises `KeyError` instead; otherwise return
`result.get('incident_key')`. -/
def eventsHandleBody (body : Option Json) : Except PyErr (Option Json) :=
  match body with
  | none => .error .jsonDecodeError
  | some result =>
    match pyGetItem result "status" with
    | .error e => .error e
    | .ok s =>
      if isSuccessStatus s then .ok (pyGetOpt result "incident_key")
      else
        match pyGetItem result "message" with
        | .error e => .error e
        | .ok m =>
          match pyGetItem result "errors" with
          | .error e => .error e
          | .ok errs => .error (.pagerDutyException s m errs)

/-- Transport handling of `PagerDuty._request` (lines 170-184): a
raised `HTTPError` with code other than 400 is re-raised; a 400 body is
treated as the result, like a 2xx body. -/
def events_request (resp : UrlopenResult) : Except PyErr (Option Json) :=
  match resp with
  | .success body => eventsHandleBody body
  | .httpError code body =>
    if code ≠ 400 then .error (.httpTransport code body) else eventsHandleBody body

/-- Whether an events call outcome is a raised `PagerDutyException`. -/
def isPagerDutyException (r : Except PyErr (Option Json)) : Bool :=
  match r with
  | .error (.pagerDutyException _ _ _) => true
  | _ => false

/-- `PagerDuty._request` end to end: build the event body, post it,
interpret the outcome. -/
def pagerduty_request (service_key event_type : String)
    (kwargs : List (String × Option Json))
    (transport : List (String × Json) → UrlopenResult) : Except PyErr (Option Json) :=
  events_request (transport (eventBody service_key event_type kwargs))

/-- The fixed page size of `Incidents.all` (line 286). -/
def page_limit : Nat := 100

/-- The transport oracle for `Incidents._make_request` (lines
265-271): `since`, `until` and `limit` are fixed for the whole call,
so a request is determined by its `offset`, and the oracle returns the
response's `(total, incidents)` pair. -/
def IncidentsServer (α : Type) : Type := Nat → Nat × List α

/-- The params dict of `Incidents._make_request` (line 266). -/
def incidentsParams (since until_ : String) (limit offset : Nat) :
    List (String × Json) :=
  [("since", Json.str since), ("until", Json.str until_),
   ("limit", Json.num limit), ("offset", Json.num offset)]

/-- `Incidents._make_request` (lines 265-271) under Python 3: the
`IncidentsRequest` constructor raises `TypeError` at line 228 before
`urlopen`, so the oracle `server` is never consulted and no request is
issued. -/
def make_request_py3 {α : Type} (conn : Conn) (server : IncidentsServer α)
    (since until_ : String) (offset : Nat) : Except PyErr (Nat × List α) :=
  match incidentsRequest_new conn (incidentsParams since until_ page_limit offset) with
  | .error e => .error e
  | .ok _ => .ok (server offset)

/-- Demand-indexed trace of the generator body of `Incidents.all`
(lines 286-299) over a fallible `_make_request` model `mk`: for `k`
demanded elements, the offsets requested, the elements yielded, and
the exception raised (if any).  Creating the generator runs nothing
(`k = 0`).  The first demand runs `mk 0`; an exception there (in this
source, the constructor crash, which happens before any request)
propagates with nothing requested or yielded.  On success the first
page is yielded element by element; once it is exhausted and the
consumer demands more, line 294 computes the Python 3 float
`total / 100 + 1` and line 295's `range(1, num_pages)` raises
`TypeError` whenever `total > limit` (`range` requires `int` and
rejects every float, integral-valued or not), so no page after the
first is ever fetched; with `total <= limit` the generator simply
ends. -/
def all_demand {α : Type} (mk : Nat → Except PyErr (Nat × List α)) (k : Nat) :
    List Nat × List α × Option PyErr :=
  match k with
  | 0 => ([], [], none)
  | k + 1 =>
    match mk 0 with
    | .error e => ([], [], some e)
    | .ok (total, incidents) =>
      if k + 1 ≤ incidents.length then ([0], incidents.take (k + 1), none)
      else if page_limit < total then ([0], incidents, some .typeError)
      else ([0], incidents, none)

/-- `Incidents.all(since, until)` under Python 3, demand-indexed: the
generator body composed with the real (always-raising)
`_make_request`. -/
def incidents_all_py3 {α : Type} (conn : Conn) (server : IncidentsServer α)
    (since until_ : String) (k : Nat) : List Nat × List α × Option PyErr :=
  all_demand (make_request_py3 conn server since until_) k

/-- The generator body of `Incidents.all` over an oracle in which
`_make_request` itself succeeds: isolates the lines 286-299 pagination
logic from the line-228 constructor crash, exposing the independent
line-295 `range(1, float)` failure. -/
def incidents_all_body {α : Type} (server : IncidentsServer α) (k : Nat) :
    List Nat × List α × Option PyErr :=
  all_demand (fun o => .ok (server o)) k

/-- A server built from three pages with a reported total of 250: the
concrete scenario of claim C1. -/
def srv250 (p0 p1 p2 : List Nat) : IncidentsServer Nat :=
  fun o => (250, if o = 0 then p0 else if o = 100 then p1 else if o = 200 then p2 else [])

/-- A server reporting `total = 0` with an empty page: witness input
for claim C2. -/
def srvW2 : IncidentsServer Nat := fun _ => (0, [])

/-- A consistent server for a reported total of 250: pages of 100, 100
and 50 elements at offsets 0, 100 and 200. -/
def srv250c : IncidentsServer Nat :=
  srv250 (List.range 100) ((List.range 100).map (fun i => i + 100))
    ((List.range 50).map (fun i => i + 200))

/-- A server reporting `total = 100` with one full page. -/
def srv100 : IncidentsServer Nat := fun _ => (100, List.range 100)

/-- A response body holding only a malformed error envelope
(`code` present, `message` absent): counterexample input for claim
C3. -/
def codeOnlyErrBody (ec : Int) : Json :=
  Json.obj [("error", Json.obj [("code", Json.num ec)])]

/-- A well-formed error envelope with `code`, `message` and a string
list `errors`. -/
def wellFormedErrBody (ec : Int) (emsg : String) (errs : List String) : Json :=
  Json.obj [("error", Json.obj
    [("code", Json.num ec), ("message", Json.str emsg),
     ("errors", Json.arr (errs.map (fun s => Json.str s)))])]

/-- A response body whose JSON contains a top-level `error` key:
failing input for claim C4. -/
def errEnvelope : Json :=
  Json.obj [("error", Json.obj [("code", Json.num 1), ("message", Json.str "m")])]

/-- A well-formed schedules response body. -/
def okEntriesBody : Json := Json.obj [("entries", Json.arr [Json.str "a"])]

/-- A well-formed incidents response body. -/
def okIncidentsBody : Json :=
  Json.obj [("total", Json.num 0), ("incidents", Json.arr [])]

/-- An events result carrying only a non-success `status`:
counterexample input for claim C5 and witness input for claim C10. -/
def statusOnlyBody : Json := Json.obj [("status", Json.str "failure")]

/-- The full failure body of the spec's events scenario:
`{"status":"failure","message":"m","errors":["e1"]}`. -/
def fullFailureBody : Json :=
  Json.obj [("status", Json.str "failure"), ("message", Json.str "m"),
            ("errors", Json.arr [Json.str "e1"])]

/-! ## Helper lemmas -/

theorem strListOfJson_map_str (l : List String) :
    strListOfJson (l.map (fun s => Json.str s)) = some l := by
  induction l with
  | nil => rfl
  | cons s rest ih => simp [strListOfJson, ih]

/-! ## Claim theorems -/

/-- Claim C4 (code_bug evidence): a Schedules or Incidents response
whose decoded JSON body contains a top-level `error` key does not
raise the structured error at all — `SchedulesError(self.content)` /
`IncidentsError(self.content)` passes the dict where an `HTTPError` is
expected, and `HTTPError.__init__`'s read of `.filename` raises
`AttributeError` first; a body without the key is returned intact. -/
theorem c4_error_key_attribute_error :
    schedulesResponse_init errEnvelope = .error (.attributeError "filename") ∧
    incidentsResponse_init errEnvelope = .error (.attributeError "filename") ∧
    schedulesResponse_init okEntriesBody = .ok okEntriesBody ∧
    incidentsResponse_init okIncidentsBody = .ok okIncidentsBody :=
  ⟨rfl, rfl, rfl, rfl⟩

/-- Claim C6: `trigger(description)` with `incident_key` and `details`
unset produces exactly the keys `service_key`, `event_type` (value
`"trigger"`) and `description`; and for every events body, a key
appears in the built body exactly when it is `service_key`,
`event_type`, or a keyword argument whose value is non-null. -/
theorem c6_trigger_body_keys :
    (∀ (sk : String) (x : Json),
      triggerBody sk (some x) none none =
        [("service_key", Json.str sk), ("event_type", Json.str "trigger"),
         ("description", x)]) ∧
    (∀ (sk et : String) (kw : List (String × Option Json)) (k : String),
      (∃ v, (k, v) ∈ eventBody sk et kw) ↔
        (k = "service_key" ∨ k = "event_type" ∨ ∃ v, (k, some v) ∈ kw)) := by
  constructor
  · intro sk x
    rfl
  · intro sk et kw k
    simp only [eventBody, List.mem_cons, List.mem_filterMap, Option.map_eq_some',
      Prod.mk.injEq]
    constructor
    · rintro ⟨v, h | h | ⟨⟨a, b⟩, hmem, w, hw, hk, hv⟩⟩
      · exact Or.inl h.1
      · exact Or.inr (Or.inl h.1)
      · subst hk hv hw
        exact Or.inr (Or.inr ⟨w, hmem⟩)
    · rintro (h | h | ⟨v, hmem⟩)
      · exact ⟨Json.str sk, Or.inl (by simp [h])⟩
      · exact ⟨Json.str et, Or.inr (Or.inl (by simp [h]))⟩
      · exact ⟨v, Or.inr (Or.inr ⟨(k, some v), hmem, v, rfl, rfl, rfl⟩)⟩

/-- Claim C3 counterexample: the claim's fallback story fails on both
error types.  With HTTP 404 "Not Found" and body
`{"error": {"code": 42}}` (no `message`), `IncidentsError` does not
retain the coarse HTTP-level fields: `statuscode` is overwritten to 42
and `statusdesc` to the joined empty `errors` list before the missing
`message` key aborts the block.  And `SchedulesError` assigns no
HTTP-level defaults at all: with an unreadable body its `statuscode`
is simply unset. -/
theorem c3_counterexample :
    incidentsError_fields 404 "Not Found" (some (codeOnlyErrBody 42)) ≠
      incidentsError_fields 404 "Not Found" none ∧
    (incidentsError_fields 404 "Not Found" (some (codeOnlyErrBody 42))).statuscode =
      some (Json.num 42) ∧
    (incidentsError_fields 404 "Not Found" (some (codeOnlyErrBody 42))).errormessage =
      some (Json.str "") ∧
    (schedulesError_fields none).statuscode = none := by
  refine ⟨?_, rfl, rfl, rfl⟩
  intro h
  have h2 := congrArg ApiErrFields.statuscode h
  have e1 : (incidentsError_fields 404 "Not Found" (some (codeOnlyErrBody 42))).statuscode =
      some (Json.num 42) := rfl
  have e2 : (incidentsError_fields 404 "Not Found" none).statuscode =
      some (Json.num 404) := rfl
  rw [e1, e2] at h2
  simp only [Option.some.injEq, Json.num.injEq] at h2
  omega

/-- Claim C3 (amended): `IncidentsError` assigns the raw HTTP code,
reason phrase and an empty message as defaults; `SchedulesError`
assigns no defaults (its three fields stay unset on failure).  Both
then attempt the decode and overwrite the fields sequentially — code,
then the pipe-joined `errors` list, then `message` — and a failure
partway keeps the overwrites already made: a well-formed nested
`error` object replaces all three fields, while a nested object with
`code` but no `message` replaces the code and description and leaves
the message at its default. -/
theorem c3_amended_error_fields :
    (∀ (code : Int) (msg : String),
      incidentsError_fields code msg none =
        ⟨some (Json.num code), some (Json.str msg), some (Json.str "")⟩) ∧
    (schedulesError_fields none = ⟨none, none, none⟩) ∧
    (∀ (code : Int) (msg : String) (ec : Int) (emsg : String) (errs : List String),
      incidentsError_fields code msg (some (wellFormedErrBody ec emsg errs)) =
        ⟨some (Json.num ec), some (Json.str (joinPipe errs)), some (Json.str emsg)⟩ ∧
      schedulesError_fields (some (wellFormedErrBody ec emsg errs)) =
        ⟨some (Json.num ec), some (Json.str (joinPipe errs)), some (Json.str emsg)⟩) ∧
    (∀ (code : Int) (msg : String) (ec : Int),
      incidentsError_fields code msg (some (codeOnlyErrBody ec)) =
        ⟨some (Json.num ec), some (Json.str ""), some (Json.str "")⟩) := by
  refine ⟨fun code msg => rfl, rfl, ?_, fun code msg ec => rfl⟩
  intro code msg ec emsg errs
  constructor <;>
    simp [incidentsError_fields, schedulesError_fields, structuredOverwrite,
      wellFormedErrBody, pyGetItem, pyGet, pyJoinPipe, strListOfJson_map_str,
      Except.toOption, List.find?]

/-- Claim C5 counterexample: the claimed equivalence "raises a
`PagerDutyException` iff the parsed `status` differs from `success`"
fails.  An HTTP 400 whose body is `{"status": "failure"}` has a
non-success status, yet the call raises `KeyError('message')`, not the
domain exception. -/
theorem c5_counterexample :
    events_request (.httpError 400 (some statusOnlyBody)) =
      .error (.keyError "message") ∧
    isPagerDutyException (events_request (.httpError 400 (some statusOnlyBody))) = false :=
  ⟨rfl, rfl⟩

/-- Claim C5 (amended): an HTTP 400 is handled exactly like a 2xx
response (its body is parsed as the result); any other raised HTTP
status is re-raised as a transport failure; a result whose `status` is
`"success"` returns its `incident_key` field (or nothing); and a
result with a non-success `status` raises the `PagerDutyException`
carrying status, message and errors provided the `message` and
`errors` keys are present (otherwise a key-lookup error is raised
instead, per claim C10). -/
theorem c5_amended_events (b : Option Json) (code : Int) (r s m e : Json) :
    (events_request (.httpError 400 b) = events_request (.success b)) ∧
    (code ≠ 400 → events_request (.httpError code b) =
      .error (.httpTransport code b)) ∧
    (pyGetItem r "status" = .ok s → isSuccessStatus s = true →
      events_request (.success (some r)) = .ok (pyGetOpt r "incident_key")) ∧
    (pyGetItem r "status" = .ok s → isSuccessStatus s = false →
      pyGetItem r "message" = .ok m → pyGetItem r "errors" = .ok e →
      events_request (.success (some r)) = .error (.pagerDutyException s m e)) := by
  refine ⟨by simp [events_request], fun h => by simp [events_request, h], ?_, ?_⟩
  · intro hs hsucc
    simp [events_request, eventsHandleBody, hs, hsucc]
  · intro hs hsucc hm he
    simp [events_request, eventsHandleBody, hs, hsucc, hm, he]

/-- Witness for claim C5 (amended) at the spec's concrete scenario:
HTTP 400 with body `{"status":"failure","message":"m","errors":["e1"]}`
is parsed as the result, is not a transport failure, and a 500 with
the same body is one. -/
theorem c5_amended_events_witness :
    events_request (.httpError 400 (some fullFailureBody)) =
      events_request (.success (some fullFailureBody)) ∧
    events_request (.httpError 500 (some fullFailureBody)) =
      .error (.httpTransport 500 (some fullFailureBody)) ∧
    events_request (.success (some fullFailureBody)) =
      .error (.pagerDutyException (Json.str "failure") (Json.str "m")
        (Json.arr [Json.str "e1"])) :=
  have h := c5_amended_events (some fullFailureBody) 500 fullFailureBody
    (Json.str "failure") (Json.str "m") (Json.arr [Json.str "e1"])
  ⟨h.1, h.2.1 (by decide), h.2.2.2 rfl rfl rfl rfl⟩

/-- Claim C10 (implicit): when the parsed events result has a
non-success `status`, the `PagerDutyException` is constructed only
when both `message` and `errors` are present; a missing `message`
raises `KeyError('message')` and a present `message` with missing
`errors` raises `KeyError('errors')`. -/
theorem c10_missing_keys_keyerror (r s : Json)
    (hs : pyGetItem r "status" = .ok s) (hns : isSuccessStatus s = false) :
    (pyGetItem r "message" = .error (.keyError "message") →
      events_request (.success (some r)) = .error (.keyError "message")) ∧
    (∀ m, pyGetItem r "message" = .ok m →
      pyGetItem r "errors" = .error (.keyError "errors") →
      events_request (.success (some r)) = .error (.keyError "errors")) ∧
    (∀ m e, pyGetItem r "message" = .ok m → pyGetItem r "errors" = .ok e →
      events_request (.success (some r)) = .error (.pagerDutyException s m e)) := by
  refine ⟨?_, ?_, ?_⟩
  · intro hm
    simp [events_request, eventsHandleBody, hs, hns, hm]
  · intro m hm he
    simp [events_request, eventsHandleBody, hs, hns, hm, he]
  · intro m e hm he
    simp [events_request, eventsHandleBody, hs, hns, hm, he]

/-- Witness for claim C10 at the body `{"status": "failure"}`: the
call fails with `KeyError('message')`. -/
theorem c10_missing_keys_keyerror_witness :
    events_request (.success (some statusOnlyBody)) = .error (.keyError "message") :=
  (c10_missing_keys_keyerror statusOnlyBody (Json.str "failure") rfl rfl).1 rfl

/-- Claim C1 (code bug evidence): under Python 3 `Incidents.all` never
issues the claimed requests.  For any connection and any server whose
first response would report `total = 250`, creating the generator runs
nothing and the first demand raises `TypeError` while constructing the
`IncidentsRequest` (line 228's `base64.encodestring` on a `str`) —
zero requests issued, nothing yielded; and even over a transport in
which `_make_request` succeeds, the generator body yields only the
first page and then raises `TypeError` at line 295's
`range(1, 250/100 + 1)` — a float — so offsets 100 and 200 are never
requested. -/
theorem c1_py3_crash :
    (∀ (conn : Conn) (since until_ : String) (p0 p1 p2 : List Nat),
      incidents_all_py3 conn (srv250 p0 p1 p2) since until_ 0 = ([], [], none)) ∧
    (∀ (conn : Conn) (since until_ : String) (k : Nat) (p0 p1 p2 : List Nat),
      incidents_all_py3 conn (srv250 p0 p1 p2) since until_ (k + 1) =
        ([], [], some PyErr.typeError)) ∧
    incidents_all_body srv250c 101 = ([0], List.range 100, some PyErr.typeError) ∧
    incidents_all_body srv250c 300 = ([0], List.range 100, some PyErr.typeError) := by
  refine ⟨fun conn s u p0 p1 p2 => rfl, fun conn s u k p0 p1 p2 => ?_, rfl, rfl⟩
  simp [incidents_all_py3, all_demand, make_request_py3, incidentsRequest_new,
    encodestring_py3]

/-- Claim C2 (code bug evidence): under Python 3 not even one request
is issued — every demand on `Incidents.all` raises `TypeError` at the
line-228 `IncidentsRequest` construction, whatever the reported
`total` — while the claim's single-request behaviour is exactly what
the generator body (lines 286-299) produces once the constructor
crash is factored out: with `total = 0` one request at offset 0 and
nothing yielded, and with `total = 100` (an exact multiple) one
request and the full page with no extra empty page, even when the
consumer demands past its end. -/
theorem c2_py3_crash :
    (∀ (α : Type) (conn : Conn) (server : IncidentsServer α)
        (since until_ : String) (k : Nat),
      incidents_all_py3 conn server since until_ (k + 1) =
        ([], [], some PyErr.typeError)) ∧
    incidents_all_body srvW2 1 = ([0], [], none) ∧
    incidents_all_body srvW2 7 = ([0], [], none) ∧
    incidents_all_body srv100 100 = ([0], List.range 100, none) ∧
    incidents_all_body srv100 101 = ([0], List.range 100, none) := by
  refine ⟨fun α conn server s u k => ?_, rfl, rfl, rfl, rfl⟩
  simp [incidents_all_py3, all_demand, make_request_py3, incidentsRequest_new,
    encodestring_py3]

/-- Claim C7 (code bug evidence): under Python 3 `Schedules.entries`
issues zero requests for every input — `SchedulesRequest` construction
raises `TypeError` at line 60 before the fetch — so the `entries`
field is never returned.  The params dict itself (lines 120-122) is
built before the crash and carries the `overflow` parameter exactly
when `overflow` is true. -/
theorem c7_py3_crash :
    (∀ (conn : Conn) (srv : PyRequest → Except HTTPErr (Option Json))
        (since until_ : String) (overflow : Bool),
      schedules_entries conn srv since until_ overflow =
        ([], .error PyErr.typeError)) ∧
    (∀ (since until_ : String) (overflow : Bool),
      ((entriesParams since until_ overflow).any (fun p => p.1 == "overflow")) =
        overflow) := by
  constructor
  · intro conn srv s u o
    rfl
  · intro s u o
    cases o <;> simp [entriesParams]

/-- Claim C8 (code bug evidence): no request ever carries the claimed
`Basic` header — both request constructors raise `TypeError` at the
`base64.encodestring('%s:%s' % (username, password))` line (60, resp.
228) for every credential pair, so construction never reaches
`add_header`. -/
theorem c8_py3_crash (conn : Conn) (resource : String)
    (ps qs : List (String × Json)) :
    schedulesRequest_new conn resource ps = .error PyErr.typeError ∧
    incidentsRequest_new conn qs = .error PyErr.typeError :=
  ⟨rfl, rfl⟩

/-- Claim C9 (code bug evidence): the genuine part of the claim is the
deferral — creating the generator issues no request — but the
described page-by-page lazy fetching never happens: no demand ever
issues any request (so, only vacuously, never one beyond the page
holding the `k`-th element), because the first demand raises
`TypeError` at the line-228 request construction; and even over a
working transport the body requests only offset 0 before the
line-295 `range(1, float)` failure. -/
theorem c9_py3_crash (conn : Conn) (server : IncidentsServer Nat)
    (since until_ : String) (k : Nat) :
    incidents_all_py3 conn server since until_ 0 = ([], [], none) ∧
    (incidents_all_py3 conn server since until_ k).1 = [] ∧
    (incidents_all_py3 conn server since until_ (k + 1)).2.2 =
      some PyErr.typeError ∧
    (incidents_all_body srv250c 101).1 = [0] := by
  refine ⟨rfl, ?_, ?_, rfl⟩
  · cases k with
    | zero => rfl
    | succ n =>
      simp [incidents_all_py3, all_demand, make_request_py3, incidentsRequest_new,
        encodestring_py3]
  · simp [incidents_all_py3, all_demand, make_request_py3, incidentsRequest_new,
      encodestring_py3]
